import Mathlib

/-!
Verification of the Auto-Delete-Media bot core (src/index.js, src/unnamed/part_000):
duration parsing, caption scanning, schedule-window evaluation, the timer
resolution chain of processMedia, configuration-store merges, whitelist
operations and the admin gate, shallowly embedded as pure Lean functions.
-/

namespace AutoDelete

/-- ASCII digit test, matching the JS regex class \d (ASCII digits only). -/
def isDigit (c : Char) : Bool := '0' ≤ c && c ≤ '9'

/-- Numeric value of a digit character. -/
def digitVal (c : Char) : Nat := c.toNat - '0'.toNat

/-- Word character for the JS regex word boundary \b: [A-Za-z0-9_]. -/
def isWordChar (c : Char) : Bool :=
  isDigit c || ('a' ≤ c && c ≤ 'z') || ('A' ≤ c && c ≤ 'Z') || c = '_'

/-- ASCII lower-casing of one character, as String.prototype.toLowerCase acts
on the ASCII range (the only range the duration grammar involves). -/
def charToLower (c : Char) : Char :=
  if 'A' ≤ c && c ≤ 'Z' then Char.ofNat (c.toNat + 32) else c

/-- Lower-case a whole string (JS `str.toLowerCase()` on ASCII input). -/
def toLowerStr (s : String) : String := String.mk (s.data.map charToLower)

/-- Decimal value of a digit-character list, as JS parseInt reads it. -/
def natOfDigits (ds : List Char) : Nat :=
  ds.foldl (fun a c => 10 * a + digitVal c) 0

/-- Milliseconds per unit character: s=1000, m=60000, h=3600000
(src/index.js lines 36-38). -/
def unitMs (u : Char) : Nat :=
  if u = 's' then 1000
  else if u = 'm' then 60 * 1000
  else 60 * 60 * 1000

/-- `parseDurationToMs` (src/index.js lines 30-40): lower-case the input and
match it against the anchored regex ^(\d+)([smh])$; on a match return
value * unit milliseconds, otherwise null (here: none). -/
def parseDurationToMs (s : String) : Option Nat :=
  let l := (toLowerStr s).data
  let ds := l.takeWhile isDigit
  match l.drop ds.length with
  | [u] =>
      if ds ≠ [] && (u = 's' || u = 'm' || u = 'h') then
        some (natOfDigits ds * unitMs u)
      else none
  | _ => none

/-- JS truthiness of the number-or-null result of parseDurationToMs:
null is falsy and 0 is falsy. -/
def jsTruthyNum (v : Option Nat) : Bool :=
  match v with
  | none => false
  | some n => n ≠ 0

/-- A regex word boundary \b holds before the current position when there is no
previous character or the previous character is not a word character (here the
following character is always a word character: a digit or a unit letter). -/
def boundaryOk (prev : Option Char) : Bool :=
  match prev with
  | none => true
  | some p => !isWordChar p

/-- Attempt of the regex \b\d+[smh]\b at one position of the (lower-cased)
caption: a maximal nonempty digit run, then one unit letter, then a word
boundary.  Backtracking inside \d+ cannot help (the shortened run would have
to end in a digit where [smh] is required), so the greedy run is the only
candidate. -/
def tryTokenAt (l : List Char) : Option (List Char) :=
  let ds := l.takeWhile isDigit
  if ds = [] then none
  else
    match l.drop ds.length with
    | [] => none
    | u :: rest =>
        if u = 's' || u = 'm' || u = 'h' then
          match rest with
          | [] => some (ds ++ [u])
          | c :: _ => if isWordChar c then none else some (ds ++ [u])
        else none

/-- Left-to-right scan of the caption for the first match of \b\d+[smh]\b,
carrying the previous character for the word-boundary test
(src/index.js line 298: caption.toLowerCase().match). -/
def findTok : Option Char → List Char → Option (List Char)
  | _, [] => none
  | prev, c :: rest =>
    if boundaryOk prev && isDigit c then
      match tryTokenAt (c :: rest) with
      | some tok => some tok
      | none => findTok (some c) rest
    else findTok (some c) rest

/-- First standalone duration token of a caption, lower-cased
(the capture group of /(\b\d+[smh]\b)/ on caption.toLowerCase()). -/
def captionToken (caption : String) : Option String :=
  (findTok none (toLowerStr caption).data).map String.mk

/-- The schedule record (chatSchedules values, src/index.js line 23):
{ startTime: "HH:MM", endTime: "HH:MM" | null, deleteDuration, timezone },
with absent fields modelled as none. -/
structure ScheduleData where
  startTime : Option String
  endTime : Option String
  deleteDuration : Option String
  timezone : Option String
deriving DecidableEq, Repr

/-- The empty record `{}` used when no schedule exists yet. -/
def emptySchedule : ScheduleData := ⟨none, none, none, none⟩

/-- JS truthiness of an optional string field: undefined/null falsy,
empty string falsy, any other string truthy. -/
def jsTruthyStr (v : Option String) : Bool :=
  match v with
  | none => false
  | some s => s ≠ ""

/-- The HH:MM shape test /^\d{2}:\d{2}$/ used by /schedule and /scheduleoff
(src/index.js lines 152, 181): exactly two digits, a colon, two digits;
no range check on hours or minutes. -/
def hhmmValid (t : String) : Bool :=
  match t.data with
  | [a, b, c, d, e] => isDigit a && isDigit b && c = ':' && isDigit d && isDigit e
  | _ => false

/-- Minute-of-day of a stored "HH:MM" string, as computed by
split(':').map(Number) followed by h*60+m (src/index.js lines 313-314);
defined on the \d{2}:\d{2} shape, 0 on other shapes (never reached, since
only shape-checked strings are stored). -/
def hhmmToMinutes (t : String) : Nat :=
  match t.data with
  | [a, b, _, d, e] => (10 * digitVal a + digitVal b) * 60 + (10 * digitVal d + digitVal e)
  | _ => 0

/-- The schedule-window membership test of processMedia
(src/index.js lines 316-331), on minute values.  An absent endTime is the
JS Infinity: the start<=end branch is taken and `current < Infinity` is
always true, leaving `current >= start`. -/
def windowActive (s : Nat) (eOpt : Option Nat) (current : Nat) : Bool :=
  match eOpt with
  | none => s ≤ current
  | some e =>
      if s ≤ e then s ≤ current && current < e
      else s ≤ current || current < e

/-- Per-chat configuration owned by the in-memory stores
(src/index.js lines 22-24): the chat's entries of chatTimers,
chatSchedules and chatWhitelists; an absent map entry is none / []. -/
structure ChatConfig where
  generalTimer : Option String
  schedule : Option ScheduleData
  whitelist : List Int
deriving DecidableEq, Repr

/-- DEFAULT_TIMER_DURATION (src/index.js line 26). -/
def DEFAULT_TIMER_DURATION : String := "15m"

/-- The caption step of processMedia (src/index.js lines 298-305):
if the caption holds a standalone token and parseDurationToMs of it is
truthy (non-null AND nonzero, by JS truthiness), that token is the timer. -/
def captionTimer (caption : String) : Option String :=
  match captionToken caption with
  | some tok => if jsTruthyNum (parseDurationToMs tok) then some tok else none
  | none => none

/-- The schedule step of processMedia (src/index.js lines 307-338): with a
schedule whose startTime and deleteDuration are truthy, evaluate the window
at the current GMT+6 minute; an endTime field that is absent (or falsy) is
Infinity; an active window contributes deleteDuration. -/
def scheduleTimer (sch : Option ScheduleData) (current : Nat) : Option String :=
  match sch with
  | none => none
  | some sc =>
      if jsTruthyStr sc.startTime && jsTruthyStr sc.deleteDuration then
        let s := hhmmToMinutes (sc.startTime.getD "")
        let eOpt : Option Nat :=
          match sc.endTime with
          | some es => if es ≠ "" then some (hhmmToMinutes es) else none
          | none => none
        if windowActive s eOpt current then sc.deleteDuration else none
      else none

/-- The timerToUse value after the precedence chain of processMedia
(src/index.js lines 296-346): caption, then active schedule, then the chat's
general timer, then DEFAULT_TIMER_DURATION when the result so far is falsy
and not 'off'. -/
def timerToUse (cfg : ChatConfig) (caption : String) (current : Nat) : String :=
  match captionTimer caption with
  | some t => t
  | none =>
      match scheduleTimer cfg.schedule current with
      | some t => t
      | none =>
          match cfg.generalTimer with
          | some t => if t ≠ "" then t else DEFAULT_TIMER_DURATION
          | none => DEFAULT_TIMER_DURATION

/-- Full processMedia outcome for one media message
(src/index.js lines 284-374): the delay of the armed one-shot deletion
timer, or none when no timer is armed.  A whitelisted author returns before
any resolution (lines 290-294); 'off' returns without a timer (lines
348-351); a null or zero deleteDelayMs arms nothing (lines 355-373). -/
def armedDelay (cfg : ChatConfig) (userId : Int) (caption : String)
    (current : Nat) : Option Nat :=
  if userId ∈ cfg.whitelist then none
  else
    let t := timerToUse cfg caption current
    if t = "off" then none
    else
      match parseDurationToMs t with
      | some v => if 0 < v then some v else none
      | none => none

/-- Deletion calls issued for one media message: the armed timer's expiry
callback invokes bot.deleteMessage exactly once for (chatId, messageId)
(src/index.js lines 357-370); with no armed timer nothing is invoked. -/
def deletionCalls (cfg : ChatConfig) (userId : Int) (caption : String)
    (current : Nat) (messageId : Int) : List Int :=
  match armedDelay cfg userId caption current with
  | some _ => [messageId]
  | none => []

/-- The /schedule store write (src/index.js lines 157-162): take the existing
record or `{}`, then assign startTime, deleteDuration and timezone in place;
endTime is untouched. -/
def mergeScheduleStart (prev : Option ScheduleData) (st d : String) : ScheduleData :=
  let sc := prev.getD emptySchedule
  { sc with startTime := some st, deleteDuration := some d, timezone := some "GMT+6" }

/-- The /scheduleoff store write (src/index.js lines 186-190): take the
existing record or `{}`, assign endTime, and keep a truthy timezone or
default it; startTime and deleteDuration are untouched. -/
def mergeScheduleEnd (prev : Option ScheduleData) (e : String) : ScheduleData :=
  let sc := prev.getD emptySchedule
  { sc with
    endTime := some e
    timezone := some (match sc.timezone with
      | some tz => if tz ≠ "" then tz else "GMT+6"
      | none => "GMT+6") }

/-- /whitelist_him core (src/index.js lines 212-219): if the id is already in
the array, send the already-on-the-whitelist acknowledgment (flag true) and
leave the array; otherwise push it (flag false: the added acknowledgment). -/
def addToWhitelist (wl : List Int) (uid : Int) : List Int × Bool :=
  if uid ∈ wl then (wl, true) else (wl ++ [uid], false)

/-- /remove_him core (src/index.js lines 233-241): indexOf then splice of one
element removes the first occurrence when present (flag true: the removed
acknowledgment); an absent id leaves the array (flag false: not-on-the-
whitelist acknowledgment). -/
def removeFromWhitelist (wl : List Int) (uid : Int) : List Int × Bool :=
  if uid ∈ wl then (wl.erase uid, true) else (wl, false)

/-- isAdmin (src/unnamed/part_000 lines 66-81, same in the second variant of
src/index.js): private chat is always allowed; an anonymous sender_chat equal
to the chat itself is allowed; otherwise, with a truthy userId, query
membership (modelled as the query's result: some status, or none when
getChatMember throws) and accept the administrator and creator roles,
denying on failure; a falsy userId denies. -/
def isAdmin (chatType : String) (senderChatId : Option Int) (chatId : Int)
    (userId : Int) (memberStatus : Option String) : Bool :=
  if chatType = "private" then true
  else if senderChatId = some chatId then true
  else if userId ≠ 0 then
    match memberStatus with
    | some st => st = "administrator" || st = "creator"
    | none => false
  else false

/-- Mutable per-chat state touched by the configuration commands. -/
structure ChatState where
  timer : Option String
  schedule : Option ScheduleData
  whitelist : List Int
deriving DecidableEq, Repr

/-- Whitespace for the JS String.prototype.trim on the command arguments. -/
def isWs (c : Char) : Bool := c = ' ' || c = '\t' || c = '\n' || c = '\r'

/-- JS `str.trim()`. -/
def jsTrim (s : String) : String :=
  String.mk (((s.data.dropWhile isWs).reverse.dropWhile isWs).reverse)

/-- /settimer handler core (src/index.js lines 124-135): trimmed, lower-cased
argument; 'off' stores 'off'; a truthy parseDurationToMs stores the string;
otherwise reply with the invalid-format error and leave state alone.  The
returned Bool is true when the command was accepted. -/
def settimerCmd (st : ChatState) (arg : String) : ChatState × Bool :=
  let inputDuration := toLowerStr (jsTrim arg)
  if inputDuration = "off" then ({ st with timer := some "off" }, true)
  else if jsTruthyNum (parseDurationToMs inputDuration) then
    ({ st with timer := some inputDuration }, true)
  else (st, false)

/-- JS `str.split(' ')` on the underlying characters. -/
def splitSpaces : List Char → List (List Char)
  | [] => [[]]
  | c :: rest =>
      let r := splitSpaces rest
      if c = ' ' then [] :: r
      else
        match r with
        | h :: t => (c :: h) :: t
        | [] => [[c]]

/-- /schedule handler core (src/index.js lines 144-162): the trimmed argument
split on single spaces must be exactly two tokens; the first must match
/^\d{2}:\d{2}$/ and the lower-cased second must be a truthy duration;
otherwise reply with an error and leave state alone. -/
def scheduleCmd (st : ChatState) (arg : String) : ChatState × Bool :=
  match (splitSpaces (jsTrim arg).data).map String.mk with
  | [startTime, dur] =>
      let deleteDuration := toLowerStr dur
      if hhmmValid startTime && jsTruthyNum (parseDurationToMs deleteDuration) then
        ({ st with schedule := some (mergeScheduleStart st.schedule startTime deleteDuration) }, true)
      else (st, false)
  | _ => (st, false)

/-- /scheduleoff handler core (src/index.js lines 179-190): the trimmed
argument must match /^\d{2}:\d{2}$/; otherwise reply with an error and leave
state alone. -/
def scheduleoffCmd (st : ChatState) (arg : String) : ChatState × Bool :=
  let endTime := jsTrim arg
  if hhmmValid endTime then
    ({ st with schedule := some (mergeScheduleEnd st.schedule endTime) }, true)
  else (st, false)

/-! ### Helper lemmas -/

lemma takeWhile_append_drop_length {α : Type} (p : α → Bool) :
    ∀ l : List α, l.takeWhile p ++ l.drop (l.takeWhile p).length = l := by
  intro l
  induction l with
  | nil => rfl
  | cons c t ih =>
      by_cases h : p c
      · simpa [List.takeWhile_cons_of_pos h] using ih
      · simp [List.takeWhile_cons_of_neg h]

lemma unit_not_digit {u : Char} (hu : u = 's' ∨ u = 'm' ∨ u = 'h') :
    isDigit u = false := by
  rcases hu with rfl | rfl | rfl <;> decide

lemma parse_of_decomp (str : String) (ds : List Char) (u : Char)
    (hl : (toLowerStr str).data = ds ++ [u]) (hne : ds ≠ [])
    (hdig : ∀ c ∈ ds, isDigit c = true) (hu : u = 's' ∨ u = 'm' ∨ u = 'h') :
    parseDurationToMs str = some (natOfDigits ds * unitMs u) := by
  have hpu : isDigit u = false := unit_not_digit hu
  have htw : ((toLowerStr str).data).takeWhile isDigit = ds := by
    rw [hl, List.takeWhile_append_of_pos hdig,
        List.takeWhile_cons_of_neg (by simp [hpu]), List.append_nil]
  have hdrop : ((toLowerStr str).data).drop ds.length = [u] := by
    rw [hl]; exact List.drop_left ds [u]
  simp only [parseDurationToMs, htw, hdrop]
  rcases hu with rfl | rfl | rfl <;> simp [hne]

lemma decomp_of_parse (str : String) (v : Nat)
    (h : parseDurationToMs str = some v) :
    ∃ ds u, (toLowerStr str).data = ds ++ [u] ∧ ds ≠ [] ∧
      (∀ c ∈ ds, isDigit c = true) ∧ (u = 's' ∨ u = 'm' ∨ u = 'h') ∧
      v = natOfDigits ds * unitMs u := by
  simp only [parseDurationToMs] at h
  split at h
  · next u heq =>
      split at h
      · next hcond =>
          rw [Option.some_inj] at h
          simp only [Bool.and_eq_true, Bool.or_eq_true, decide_eq_true_eq] at hcond
          obtain ⟨hne, hor⟩ := hcond
          refine ⟨((toLowerStr str).data).takeWhile isDigit, u, ?_, hne, ?_, or_assoc.mp hor, h.symm⟩
          · rw [← heq, takeWhile_append_drop_length]
          · intro c hc; exact List.mem_takeWhile_imp hc
      · exact absurd h (by simp)
  · exact absurd h (by simp)

/-- C3: for every string of the form integer-then-unit (case-insensitive, unit
among s, m, h and a nonempty digit run), parseDurationToMs yields the value
times 1000 / 60000 / 3600000 milliseconds respectively, and those are exactly
the strings on which it does not return Invalid (none): empty input,
non-numeric values, unknown units and any leading or trailing extra
characters all yield none. -/
theorem parseDurationToMs_characterization :
    (unitMs 's' = 1000 ∧ unitMs 'm' = 60000 ∧ unitMs 'h' = 3600000)
    ∧ ∀ (str : String) (v : Nat),
        parseDurationToMs str = some v ↔
          ∃ ds u, (toLowerStr str).data = ds ++ [u] ∧ ds ≠ [] ∧
            (∀ c ∈ ds, isDigit c = true) ∧ (u = 's' ∨ u = 'm' ∨ u = 'h') ∧
            v = natOfDigits ds * unitMs u := by
  refine ⟨⟨rfl, rfl, rfl⟩, ?_⟩
  intro str v
  constructor
  · exact decomp_of_parse str v
  · rintro ⟨ds, u, hl, hne, hdig, hu, rfl⟩
    exact parse_of_decomp str ds u hl hne hdig hu

/-- C2: the schedule window is active exactly on the half-open interval
[start, end) when start <= end, on current >= start OR current < end when
start > end (overnight wraparound), and an unset endTime behaves as +infinity
(active from start onward); on the stored records, the 22:00-08:00 window is
active at 23:00 and 03:00 and inactive at 12:00, and the 09:00-17:00 window
is active at 09:00 and inactive at 17:00 and at 08:59. -/
theorem windowActive_characterization :
    (∀ s e current : Nat, s ≤ e →
        (windowActive s (some e) current = true ↔ s ≤ current ∧ current < e))
    ∧ (∀ s e current : Nat, e < s →
        (windowActive s (some e) current = true ↔ s ≤ current ∨ current < e))
    ∧ (∀ s current : Nat, windowActive s none current = true ↔ s ≤ current)
    ∧ scheduleTimer (some ⟨some "22:00", some "08:00", some "5m", some "GMT+6"⟩) (23 * 60) = some "5m"
    ∧ scheduleTimer (some ⟨some "22:00", some "08:00", some "5m", some "GMT+6"⟩) (3 * 60) = some "5m"
    ∧ scheduleTimer (some ⟨some "22:00", some "08:00", some "5m", some "GMT+6"⟩) (12 * 60) = none
    ∧ scheduleTimer (some ⟨some "09:00", some "17:00", some "5m", some "GMT+6"⟩) (9 * 60) = some "5m"
    ∧ scheduleTimer (some ⟨some "09:00", some "17:00", some "5m", some "GMT+6"⟩) (17 * 60) = none
    ∧ scheduleTimer (some ⟨some "09:00", some "17:00", some "5m", some "GMT+6"⟩) (8 * 60 + 59) = none := by
  refine ⟨?_, ?_, ?_, by decide, by decide, by decide, by decide, by decide, by decide⟩
  · intro s e current hle
    simp [windowActive, hle]
  · intro s e current hlt
    simp [windowActive, Nat.not_le.mpr hlt]
  · intro s current
    simp [windowActive]

/-- Witness for the window characterization at concrete inputs: the
non-wraparound branch at start 10, end 20, current 15. -/
theorem windowActive_characterization_witness :
    windowActive 10 (some 20) 15 = true :=
  (windowActive_characterization.1 10 20 15 (by decide)).mpr ⟨by decide, by decide⟩

/-- C1 counterexample: a whitelisted author (id 42) posts media whose caption
"check this 30s" holds a standalone token parsing to 30000 ms, yet
processMedia returns at the whitelist guard before the caption is even
scanned: no deletion timer is armed at all, rather than a 30000 ms one —
caption resolution IS gated by whitelist membership. -/
theorem caption_gated_by_whitelist :
    captionToken "check this 30s" = some "30s"
    ∧ parseDurationToMs "30s" = some 30000
    ∧ armedDelay ⟨some "off", none, [42]⟩ 42 "check this 30s" 0 = none := by
  decide

/-- C1 amended: for a NON-WHITELISTED author, a standalone caption token that
parses to a nonzero duration is used as the effective delay regardless of the
chat configuration (any general timer including an explicit Off, any
schedule) and of the current time. -/
theorem caption_wins_for_nonwhitelisted (cfg : ChatConfig) (uid : Int)
    (caption : String) (current : Nat) (tok : String) (v : Nat)
    (hw : uid ∉ cfg.whitelist) (ht : captionToken caption = some tok)
    (hp : parseDurationToMs tok = some v) (hv : 0 < v) :
    armedDelay cfg uid caption current = some v := by
  have htok : captionTimer caption = some tok := by
    simp [captionTimer, ht, hp, jsTruthyNum, Nat.pos_iff_ne_zero.mp hv]
  have hoff : tok ≠ "off" := by
    intro h
    rw [h, show parseDurationToMs "off" = none from by decide] at hp
    exact Option.noConfusion hp
  simp [armedDelay, timerToUse, htok, hw, hoff, hp, hv]

/-- Witness for the amended C1 at the spec's precedence example: GeneralTimer
Off, a schedule inactive at noon, caption "check this 30s", a non-whitelisted
author: the effective delay is 30000 ms. -/
theorem caption_wins_for_nonwhitelisted_witness :
    armedDelay ⟨some "off", some ⟨some "22:00", some "08:00", some "5m", some "GMT+6"⟩, []⟩
      7 "check this 30s" (12 * 60) = some 30000 :=
  caption_wins_for_nonwhitelisted _ 7 _ (12 * 60) "30s" 30000
    (by simp) (by decide) (by decide) (by decide)

/-- C4: in a chat with no configuration at all (no general timer entry, no
schedule record, empty whitelist), a media message whose caption holds no
standalone duration token resolves to the fixed system default 15m =
900000 ms, and exactly one deletion call is issued for that message id when
the armed timer fires. -/
theorem default_applies_when_unconfigured (uid : Int) (caption : String)
    (current : Nat) (mid : Int) (hc : captionToken caption = none) :
    timerToUse ⟨none, none, []⟩ caption current = DEFAULT_TIMER_DURATION
    ∧ armedDelay ⟨none, none, []⟩ uid caption current = some 900000
    ∧ deletionCalls ⟨none, none, []⟩ uid caption current mid = [mid] := by
  have htu : timerToUse ⟨none, none, []⟩ caption current = DEFAULT_TIMER_DURATION := by
    simp [timerToUse, captionTimer, hc, scheduleTimer]
  have had : armedDelay ⟨none, none, []⟩ uid caption current = some 900000 := by
    simp [armedDelay, htu, DEFAULT_TIMER_DURATION]
    decide
  exact ⟨htu, had, by simp [deletionCalls, had]⟩

/-- Witness for C4 at a concrete unconfigured chat: caption "nice pic",
author 7, message 99. -/
theorem default_applies_when_unconfigured_witness :
    timerToUse ⟨none, none, []⟩ "nice pic" 0 = DEFAULT_TIMER_DURATION
    ∧ armedDelay ⟨none, none, []⟩ 7 "nice pic" 0 = some 900000
    ∧ deletionCalls ⟨none, none, []⟩ 7 "nice pic" 0 99 = [99] :=
  default_applies_when_unconfigured 7 "nice pic" 0 99 (by decide)

/-- C5 counterexample: a non-whitelisted author (id 7) posts media captioned
"0s" in an unconfigured chat.  The token parses (to 0 ms), but JS truthiness
makes the caption step reject 0, so the chain falls through to the system
default: a 900000 ms deletion timer IS armed and a deletion call IS issued —
contradicting the claim that the effective delay is 0 ms and nothing is ever
deleted. -/
theorem zero_caption_falls_through :
    captionToken "0s" = some "0s"
    ∧ parseDurationToMs "0s" = some 0
    ∧ armedDelay ⟨none, none, []⟩ 7 "0s" 0 = some 900000
    ∧ deletionCalls ⟨none, none, []⟩ 7 "0s" 0 99 = [99] := by
  decide

/-- C5 amended: a standalone zero-valued caption token parses successfully to
0 ms, but the caption step's truthiness guard rejects zero, so the caption
sets no timer and resolution proceeds exactly as for a caption with no token;
in particular, for a non-whitelisted author in a chat with no other
configuration, the system default 900000 ms deletion is armed.  (Zero
suppression exists only at the final arming check, which a caption zero never
reaches.) -/
theorem zero_caption_not_used (cfg : ChatConfig) (uid : Int) (caption : String)
    (current : Nat) (tok : String) (hw : uid ∉ cfg.whitelist)
    (ht : captionToken caption = some tok)
    (h0 : parseDurationToMs tok = some 0) :
    captionTimer caption = none
    ∧ timerToUse cfg caption current = timerToUse cfg "" current
    ∧ armedDelay ⟨none, none, cfg.whitelist⟩ uid caption current = some 900000 := by
  have hcap : captionTimer caption = none := by
    simp [captionTimer, ht, h0, jsTruthyNum]
  refine ⟨hcap, ?_, ?_⟩
  · simp [timerToUse, hcap, show captionTimer "" = none from by decide]
  · have : timerToUse ⟨none, none, cfg.whitelist⟩ caption current = DEFAULT_TIMER_DURATION := by
      simp [timerToUse, hcap, scheduleTimer]
    simp [armedDelay, this, DEFAULT_TIMER_DURATION, hw]
    decide

/-- Witness for the amended C5: caption "0s", author 7, unconfigured chat. -/
theorem zero_caption_not_used_witness :
    captionTimer "0s" = none
    ∧ timerToUse ⟨none, none, []⟩ "0s" 0 = timerToUse ⟨none, none, []⟩ "" 0
    ∧ armedDelay ⟨none, none, []⟩ 7 "0s" 0 = some 900000 :=
  zero_caption_not_used ⟨none, none, []⟩ 7 "0s" 0 "0s" (by simp) (by decide) (by decide)

/-- C6: the /schedule write sets startTime, deleteDuration and timezone but
leaves any previously stored endTime untouched; the /scheduleoff write sets
endTime (and defaults a missing timezone) but leaves startTime and
deleteDuration untouched; in either arrival order the two commands produce
the fully populated record, each update merging field-by-field rather than
replacing the record. -/
theorem schedule_merges_preserve_fields (sc : ScheduleData)
    (prev : Option ScheduleData) (st d e : String) :
    (mergeScheduleStart (some sc) st d).endTime = sc.endTime
    ∧ (mergeScheduleEnd (some sc) e).startTime = sc.startTime
    ∧ (mergeScheduleEnd (some sc) e).deleteDuration = sc.deleteDuration
    ∧ mergeScheduleEnd (some (mergeScheduleStart prev st d)) e
        = ⟨some st, some e, some d, some "GMT+6"⟩
    ∧ mergeScheduleStart (some (mergeScheduleEnd prev e)) st d
        = ⟨some st, some e, some d, some "GMT+6"⟩ := by
  refine ⟨rfl, rfl, rfl, ?_, ?_⟩
  · simp [mergeScheduleStart, mergeScheduleEnd]
  · cases prev <;> simp [mergeScheduleStart, mergeScheduleEnd, emptySchedule]

/-- C7: starting from any whitelist not containing the id, the first add
reports alreadyPresent = false, the second add reports alreadyPresent = true
and leaves the set unchanged (a distinct acknowledgment, no second
insertion), and removing an absent id reports wasPresent = false and leaves
the set unchanged. -/
theorem whitelist_idempotence (wl : List Int) (uid : Int) (h : uid ∉ wl) :
    (addToWhitelist wl uid).2 = false
    ∧ (addToWhitelist (addToWhitelist wl uid).1 uid).2 = true
    ∧ (addToWhitelist (addToWhitelist wl uid).1 uid).1 = (addToWhitelist wl uid).1
    ∧ removeFromWhitelist wl uid = (wl, false) := by
  have hmem : uid ∈ wl ++ [uid] := List.mem_append_right wl (by simp)
  simp [addToWhitelist, removeFromWhitelist, h, hmem]

/-- Witness for C7: whitelist [1, 2] and id 5. -/
theorem whitelist_idempotence_witness :
    (addToWhitelist [1, 2] 5).2 = false
    ∧ (addToWhitelist (addToWhitelist [1, 2] 5).1 5).2 = true
    ∧ (addToWhitelist (addToWhitelist [1, 2] 5).1 5).1 = (addToWhitelist [1, 2] 5).1
    ∧ removeFromWhitelist [1, 2] 5 = ([1, 2], false) :=
  whitelist_idempotence [1, 2] 5 (by decide)

/-- C8: the authorization gate answers true for any actor in a private chat;
true when the sender_chat identity equals the chat's own identity (anonymous
group identity); otherwise, for a truthy user id, true exactly when the
membership query reports the administrator or creator role, and false
whenever the membership query fails (throws). -/
theorem isAdmin_characterization (chatType : String) (senderChatId : Option Int)
    (chatId uid : Int) (q : Option String) :
    (chatType = "private" → isAdmin chatType senderChatId chatId uid q = true)
    ∧ (senderChatId = some chatId → isAdmin chatType senderChatId chatId uid q = true)
    ∧ (chatType ≠ "private" → senderChatId ≠ some chatId → uid ≠ 0 →
        ((∀ st, q = some st →
           (isAdmin chatType senderChatId chatId uid q = true
             ↔ st = "administrator" ∨ st = "creator"))
         ∧ (q = none → isAdmin chatType senderChatId chatId uid q = false))) := by
  refine ⟨?_, ?_, ?_⟩
  · intro h; simp [isAdmin, h]
  · intro h; simp [isAdmin, h]
  · intro hct hsc huid
    constructor
    · rintro st rfl
      simp [isAdmin, hct, hsc, huid]
    · rintro rfl
      simp [isAdmin, hct, hsc, huid]

/-- Witness for C8: a supergroup, no anonymous sender, user 9 with a
successful membership query reporting "creator": mutation is allowed. -/
theorem isAdmin_characterization_witness :
    isAdmin "supergroup" none 5 9 (some "creator") = true :=
  ((isAdmin_characterization "supergroup" none 5 9 (some "creator")).2.2
      (by decide) (by simp) (by decide)).1 "creator" rfl
    |>.mpr (Or.inr rfl)

/-- C9: a /settimer whose argument is neither 'off' nor a truthy duration, a
/schedule whose argument does not split into exactly a shape-valid HH:MM and
a truthy duration, and a /scheduleoff whose argument is not a shape-valid
HH:MM are all rejected with the user-facing error reply (accepted = false)
and leave the whole chat state — general timer, schedule record and
whitelist — unchanged. -/
theorem malformed_commands_rejected (st : ChatState) (a1 a2 a3 : String)
    (h1 : toLowerStr (jsTrim a1) ≠ "off"
          ∧ jsTruthyNum (parseDurationToMs (toLowerStr (jsTrim a1))) = false)
    (h2 : ∀ stt dur, (splitSpaces (jsTrim a2).data).map String.mk = [stt, dur] →
            hhmmValid stt = false
            ∨ jsTruthyNum (parseDurationToMs (toLowerStr dur)) = false)
    (h3 : hhmmValid (jsTrim a3) = false) :
    settimerCmd st a1 = (st, false)
    ∧ scheduleCmd st a2 = (st, false)
    ∧ scheduleoffCmd st a3 = (st, false) := by
  refine ⟨?_, ?_, ?_⟩
  · simp [settimerCmd, h1.1, h1.2]
  · simp only [scheduleCmd]
    split
    · next stt dur heq =>
        rcases h2 stt dur heq with h | h <;> simp [h]
    · rfl
  · simp [scheduleoffCmd, h3]

/-- Witness for C9: argument "banana" for /settimer, "9:00 5m" (one-digit
hour) for /schedule, "8:00" for /scheduleoff, all on a populated state. -/
theorem malformed_commands_rejected_witness :
    settimerCmd ⟨some "5m", none, [3]⟩ "banana" = (⟨some "5m", none, [3]⟩, false)
    ∧ scheduleCmd ⟨some "5m", none, [3]⟩ "9:00 5m" = (⟨some "5m", none, [3]⟩, false)
    ∧ scheduleoffCmd ⟨some "5m", none, [3]⟩ "8:00" = (⟨some "5m", none, [3]⟩, false) :=
  malformed_commands_rejected ⟨some "5m", none, [3]⟩ "banana" "9:00 5m" "8:00"
    ⟨by decide, by decide⟩
    (by
      intro stt dur h
      rw [show (splitSpaces (jsTrim "9:00 5m").data).map String.mk
            = (["9:00", "5m"] : List String) from by decide] at h
      injection h with hh ht
      injection ht with ht _
      subst hh
      exact Or.inl (by decide))
    (by decide)

/-- C10: the HH:MM shape test range-checks nothing, so /schedule stores
"25:99" and /scheduleoff stores "99:99" verbatim and acknowledges them; the
evaluator turns "25:99" into minute 1599 > 1439; and a non-wraparound window
(endTime absent, or start <= end) whose start exceeds 1439 is inactive at
every real current time (current < 1440). -/
theorem out_of_range_times_accepted_never_active (s : Nat) (eOpt : Option Nat)
    (current : Nat) (hcur : current < 1440) (hs : 1439 < s)
    (he : ∀ e, eOpt = some e → s ≤ e) :
    hhmmValid "25:99" = true
    ∧ hhmmValid "99:99" = true
    ∧ scheduleCmd ⟨none, none, []⟩ "25:99 5m"
        = (⟨none, some ⟨some "25:99", none, some "5m", some "GMT+6"⟩, []⟩, true)
    ∧ scheduleoffCmd ⟨none, none, []⟩ "99:99"
        = (⟨none, some ⟨none, some "99:99", none, some "GMT+6"⟩, []⟩, true)
    ∧ hhmmToMinutes "25:99" = 1599
    ∧ windowActive s eOpt current = false := by
  refine ⟨by decide, by decide, by decide, by decide, by decide, ?_⟩
  cases eOpt with
  | none =>
      simp [windowActive]
      omega
  | some e =>
      have hse : s ≤ e := he e rfl
      simp [windowActive, hse]
      omega

/-- Witness for C10: start minute 1599 (from "25:99"), no end, noon (720):
the window is inactive. -/
theorem out_of_range_times_accepted_never_active_witness :
    windowActive 1599 none 720 = false :=
  (out_of_range_times_accepted_never_active 1599 none 720 (by decide) (by decide)
      (fun e h => Option.noConfusion h)).2.2.2.2.2

end AutoDelete
